import Mathlib

/-!
Shallow embedding of `src/main.py` (smc-sorter): a question/answer GIF pairing
and PDF rendering script, plus the spec's file-sorting utility.

Modelling conventions:
* a directory listing is a `List String` of file names; a directory that may be
  absent is an `Option (List String)`;
* Python `str.endswith` and `Path.stem` are modelled on the character list of
  the string (`pyEndsWith`, `pyDropRight`);
* image files are modelled by what the image library reports for them: an
  `Option (ℚ × ℚ)` of pixel dimensions, `none` meaning the read fails;
* float arithmetic of the dimension calculator is modelled over `ℚ`;
* the two rendering strategies are oracles `Strategy`; orchestrators return the
  trace of strategy invocations (`RenderCall`) besides their result;
* the fallback renderer `create_simple_pdf` is additionally modelled down to
  its canvas method calls, because it dispatches a method name that does not
  exist on the ReportLab canvas object.
-/

namespace SmcSorter

/-- Python `s.endswith(suffix)`, on the character data of the string. -/
def pyEndsWith (s suffix : String) : Bool :=
  suffix.data.isSuffixOf s.data

/-- Python `s[:-n]` (for `n ≤ len s`), i.e. drop the last `n` characters;
used to model `Path.stem` of a `*.gif` file name as dropping `".gif"`. -/
def pyDropRight (s : String) (n : Nat) : String :=
  ⟨s.data.take (s.data.length - n)⟩

/-- A discovered pair `(question_id, question_path, answer_path)`,
as in `get_gif_pairs` (src/main.py line 67). -/
abbrev GifPair := String × String × String

/-- Path of a file inside a directory (`self.questions_folder / name`). -/
def pathJoin (d f : String) : String := d ++ "/" ++ f

/-- Python tuple comparison on a `GifPair`: lexicographic, as used by
`sorted(gif_pairs)` (src/main.py line 93). -/
def tupLe (x y : GifPair) : Prop :=
  toLex (x.1, toLex (x.2.1, x.2.2)) ≤ toLex (y.1, toLex (y.2.1, y.2.2))

instance : DecidableRel tupLe := fun x y =>
  inferInstanceAs (Decidable (toLex (x.1, toLex (x.2.1, x.2.2)) ≤ toLex (y.1, toLex (y.2.1, y.2.2))))

instance : IsTotal GifPair tupLe :=
  ⟨fun x y => le_total (toLex (x.1, toLex (x.2.1, x.2.2))) (toLex (y.1, toLex (y.2.1, y.2.2)))⟩

instance : IsTrans GifPair tupLe :=
  ⟨fun _ _ _ h1 h2 => le_trans h1 h2⟩

/-- The loop body of `get_gif_pairs` (src/main.py lines 78-91): walk the
globbed `*.gif` names, skip stems ending in `s`, pair the rest with their
`{stem}s.gif` answer when it exists, and otherwise record a warning. -/
def gifLoop (files : List String) (dirName : String) :
    List String → List GifPair × List String
  | [] => ([], [])
  | f :: rest =>
    if pyEndsWith (pyDropRight f 4) "s" then
      gifLoop files dirName rest
    else if files.contains (pyDropRight f 4 ++ "s.gif") then
      ((pyDropRight f 4, pathJoin dirName f,
          pathJoin dirName (pyDropRight f 4 ++ "s.gif")) :: (gifLoop files dirName rest).1,
        (gifLoop files dirName rest).2)
    else
      ((gifLoop files dirName rest).1,
        ("Warning: No answer found for question " ++ pyDropRight f 4)
          :: (gifLoop files dirName rest).2)

/-- `get_gif_pairs` (src/main.py lines 62-93). The first component is the
sorted pair list the function returns; the second component collects the
messages it prints (the missing-directory error, the unpaired-file warnings).
-/
def get_gif_pairs (dir : Option (List String)) (dirName : String) :
    List GifPair × List String :=
  match dir with
  | none => ([], ["Error: Questions folder " ++ dirName ++ " not found!"])
  | some files =>
    ((gifLoop files dirName (files.filter (fun f => pyEndsWith f ".gif"))).1.insertionSort tupLe,
      (gifLoop files dirName (files.filter (fun f => pyEndsWith f ".gif"))).2)

/-- `get_image_dimensions` (src/main.py lines 95-137), with the image read
modelled as `Option (ℚ × ℚ)` (`none` = the read raised) and float arithmetic
over `ℚ`. The maxima are taken as explicit arguments (the Python defaults are
layout constants supplied by the callers). -/
def get_image_dimensions : Option (ℚ × ℚ) → ℚ → ℚ → ℚ × ℚ
  | some (img_width, img_height), max_width, max_height =>
    if img_width > img_height then
      if min max_width img_width / (img_width / img_height) > max_height then
        (max_height * (img_width / img_height), max_height)
      else
        (min max_width img_width, min max_width img_width / (img_width / img_height))
    else
      if min max_height img_height * (img_width / img_height) > max_width then
        (max_width, max_width / (img_width / img_height))
      else
        (min max_height img_height * (img_width / img_height), min max_height img_height)
  | none, max_width, max_height => (max_width * 0.8, max_height * 0.8)

/-- A rendering strategy invocation, recording which renderer ran and on what
arguments (in the call order of src/main.py: question path, answer path, id,
output path). -/
inductive RenderCall where
  | withGifs (question_path answer_path question_id output_path : String)
  | simple (question_path answer_path question_id output_path : String)
deriving DecidableEq

/-- True exactly on fallback (`create_simple_pdf`) invocations. -/
def RenderCall.isSimple : RenderCall → Bool
  | .simple _ _ _ _ => true
  | .withGifs _ _ _ _ => false

/-- A renderer treated as an oracle: its arguments in source call order, its
result the returned success boolean. -/
abbrev Strategy := String → String → String → String → Bool

/-- The output path `self.output_folder / f"question_{question_id}.pdf"`. -/
def outputPathFor (question_id : String) : String :=
  "output_pdfs/question_" ++ question_id ++ ".pdf"

/-- `process_all_questions` (src/main.py lines 319-355), parametrised by the
two strategies and applied to the discovered pair list; returns the final
success count and the trace of strategy invocations. -/
def process_all_questions (primary fallback : Strategy) (use_simple_mode : Bool) :
    List GifPair → Nat × List RenderCall
  | [] => (0, [])
  | (question_id, question_path, answer_path) :: rest =>
    (if (if use_simple_mode then
          fallback question_path answer_path question_id (outputPathFor question_id)
        else
          primary question_path answer_path question_id (outputPathFor question_id) ||
            fallback question_path answer_path question_id (outputPathFor question_id)) then
        1 + (process_all_questions primary fallback use_simple_mode rest).1
      else
        (process_all_questions primary fallback use_simple_mode rest).1,
      (if use_simple_mode then
          [RenderCall.simple question_path answer_path question_id (outputPathFor question_id)]
        else if primary question_path answer_path question_id (outputPathFor question_id) then
          [RenderCall.withGifs question_path answer_path question_id (outputPathFor question_id)]
        else
          [RenderCall.withGifs question_path answer_path question_id (outputPathFor question_id),
            RenderCall.simple question_path answer_path question_id (outputPathFor question_id)])
        ++ (process_all_questions primary fallback use_simple_mode rest).2)

/-- `process_single_question` (src/main.py lines 357-390): explicit existence
checks for `{id}.gif` and `{id}s.gif`, then the same strategy policy as the
batch path. Returns (success, strategy trace, error messages printed). -/
def process_single_question (primary fallback : Strategy) (files : List String)
    (dirName question_id : String) (use_simple_mode : Bool) :
    Bool × List RenderCall × List String :=
  if !files.contains (question_id ++ ".gif") then
    (false, [],
      ["Error: Question GIF not found: " ++ pathJoin dirName (question_id ++ ".gif")])
  else if !files.contains (question_id ++ "s.gif") then
    (false, [],
      ["Error: Answer GIF not found: " ++ pathJoin dirName (question_id ++ "s.gif")])
  else if use_simple_mode then
    (fallback (pathJoin dirName (question_id ++ ".gif")) (pathJoin dirName (question_id ++ "s.gif"))
        question_id (outputPathFor question_id),
      [RenderCall.simple (pathJoin dirName (question_id ++ ".gif"))
        (pathJoin dirName (question_id ++ "s.gif")) question_id (outputPathFor question_id)], [])
  else if primary (pathJoin dirName (question_id ++ ".gif"))
      (pathJoin dirName (question_id ++ "s.gif")) question_id (outputPathFor question_id) then
    (true,
      [RenderCall.withGifs (pathJoin dirName (question_id ++ ".gif"))
        (pathJoin dirName (question_id ++ "s.gif")) question_id (outputPathFor question_id)], [])
  else
    (fallback (pathJoin dirName (question_id ++ ".gif")) (pathJoin dirName (question_id ++ "s.gif"))
        question_id (outputPathFor question_id),
      [RenderCall.withGifs (pathJoin dirName (question_id ++ ".gif"))
          (pathJoin dirName (question_id ++ "s.gif")) question_id (outputPathFor question_id),
        RenderCall.simple (pathJoin dirName (question_id ++ ".gif"))
          (pathJoin dirName (question_id ++ "s.gif")) question_id (outputPathFor question_id)], [])

/-! The fallback renderer `create_simple_pdf` modelled down to its canvas
method dispatch. The ReportLab `Canvas` text/drawing methods it could resolve
are listed in `canvasMethods`; an attribute that is not among them raises
`AttributeError` at the call site, exactly like Python attribute lookup. -/

/-- Methods the ReportLab `pdfgen` canvas object actually exposes (the ones
relevant to this script): note `drawCentredString` is the centred-text method;
there is no `drawCentredText`. -/
def canvasMethods : List String :=
  ["setFont", "drawString", "drawRightString", "drawCentredString",
    "drawAlignedString", "drawText", "drawImage", "line", "rect",
    "showPage", "save"]

/-- Python attribute lookup plus call on the canvas: a known method succeeds,
an unknown one raises `AttributeError`. -/
def callMethod (m : String) : Except String Unit :=
  if canvasMethods.contains m then Except.ok () else
    Except.error ("AttributeError: Canvas object has no attribute " ++ m)

/-- `canvas.drawImage`: raises when the image file cannot be read. -/
def drawImage (img : Option (ℚ × ℚ)) : Except String Unit :=
  match img with
  | some _ => callMethod "drawImage"
  | none => Except.error "OSError: cannot identify image file"

/-- ReportLab length unit `cm` in points (`72 / 2.54`). -/
def cmPt : ℚ := 72 / 2.54

/-- ReportLab page size `A4` in points (`(210 * mm, 297 * mm)`). -/
def a4 : ℚ × ℚ := (210 * (cmPt * 0.1), 297 * (cmPt * 0.1))

/-- `create_simple_pdf` (src/main.py lines 239-317): the fixed-coordinate
fallback renderer, as an exception-monad computation over the canvas calls the
source makes, wrapped in the outer try/except that turns any exception into a
`False` return. `loadImage` models what the image library reports for a path.
-/
def create_simple_pdf (loadImage : String → Option (ℚ × ℚ))
    (question_path answer_path question_id output_path : String) : Bool :=
  let body : Except String Unit := do
    callMethod "setFont"
    callMethod "drawCentredText"
    callMethod "setFont"
    callMethod "drawCentredText"
    let answer_y_start ← try
        let qdims := get_image_dimensions (loadImage question_path)
          (a4.1 - 4 * cmPt) ((a4.2 - 200) / 2.2)
        drawImage (loadImage question_path)
        pure (a4.2 - 150 - qdims.2 - 80)
      catch _ =>
        pure (a4.2 / 2)
    callMethod "line"
    callMethod "setFont"
    callMethod "drawCentredText"
    try
      let _adims := get_image_dimensions (loadImage answer_path)
        (a4.1 - 4 * cmPt) (answer_y_start - 100)
      drawImage (loadImage answer_path)
    catch _ => do
      callMethod "setFont"
      callMethod "drawCentredText"
    callMethod "save"
  match body with
  | Except.ok _ => true
  | Except.error _ => false

/-- Moving a file into a directory listing, with the silent-overwrite move
semantics the spec describes: a same-named file at the destination is
replaced, so the name appears once afterwards. -/
def moveTo (dest : List String) (f : String) : List String :=
  if dest.contains f then dest else dest ++ [f]

/-- Modelled from the spec: the sorting utility of §4.6 ("Sorting Component")
is not present under `src/` (the repository ships only `main.py`), so its
contract is taken from the spec text: for every entry of the source directory,
a name ending in `s.gif` is moved to the solutions directory, else a name
ending in `.gif` is moved to the questions directory, else the entry is left
untouched. The result is the final (unsorted, questions, solutions) listings.
-/
def sort_files : List String → List String → List String →
    List String × List String × List String
  | [], questions, solutions => ([], questions, solutions)
  | f :: rest, questions, solutions =>
    if pyEndsWith f "s.gif" then
      sort_files rest questions (moveTo solutions f)
    else if pyEndsWith f ".gif" then
      sort_files rest (moveTo questions f) solutions
    else
      ((f :: (sort_files rest questions solutions).1),
        (sort_files rest questions solutions).2.1,
        (sort_files rest questions solutions).2.2)

/-! ### Helper lemmas -/

theorem pyEndsWith_append (s t : String) : pyEndsWith (s ++ t) t = true := by
  simp only [pyEndsWith, List.isSuffixOf_iff_suffix, String.data_append]
  exact List.suffix_append s.data t.data

theorem pyDropRight_append (s t : String) : pyDropRight (s ++ t) t.data.length = s := by
  apply String.ext
  show ((s ++ t).data.take ((s ++ t).data.length - t.data.length)) = s.data
  simp [String.data_append]

theorem pyDropRight_gif (s : String) : pyDropRight (s ++ ".gif") 4 = s := by
  rw [show (4 : Nat) = (".gif" : String).data.length from rfl]
  exact pyDropRight_append s ".gif"

theorem append_gif_of_pyEndsWith {f : String} (h : pyEndsWith f ".gif" = true) :
    pyDropRight f 4 ++ ".gif" = f := by
  obtain ⟨u, hu⟩ : (".gif" : String).data <:+ f.data := by
    simpa [pyEndsWith, List.isSuffixOf_iff_suffix] using h
  have hf : (⟨u⟩ : String) ++ ".gif" = f := String.ext (by simpa using hu)
  rw [← hf, pyDropRight_gif]

theorem mem_gifLoop {files : List String} {d : String} {l : List String} {p : GifPair} :
    p ∈ (gifLoop files d l).1 ↔
      ∃ f, f ∈ l ∧ pyEndsWith (pyDropRight f 4) "s" = false ∧
        files.contains (pyDropRight f 4 ++ "s.gif") = true ∧
        p = (pyDropRight f 4, pathJoin d f, pathJoin d (pyDropRight f 4 ++ "s.gif")) := by
  induction l with
  | nil => simp [gifLoop]
  | cons f rest ih =>
    by_cases h1 : pyEndsWith (pyDropRight f 4) "s" = true
    · rw [gifLoop, if_pos h1, ih]
      constructor
      · rintro ⟨g, hg, h⟩
        exact ⟨g, List.mem_cons_of_mem f hg, h⟩
      · rintro ⟨g, hg, hgs, hgc, hgp⟩
        rcases List.mem_cons.mp hg with rfl | hg'
        · rw [h1] at hgs; cases hgs
        · exact ⟨g, hg', hgs, hgc, hgp⟩
    · rw [Bool.not_eq_true] at h1
      by_cases h2 : files.contains (pyDropRight f 4 ++ "s.gif") = true
      · rw [gifLoop, if_neg (by simp [h1]), if_pos h2]
        constructor
        · intro hp
          rcases List.mem_cons.mp hp with rfl | hp'
          · exact ⟨f, List.mem_cons_self f rest, h1, h2, rfl⟩
          · obtain ⟨g, hg, h⟩ := ih.mp hp'
            exact ⟨g, List.mem_cons_of_mem f hg, h⟩
        · rintro ⟨g, hg, hgs, hgc, hgp⟩
          rcases List.mem_cons.mp hg with rfl | hg'
          · exact List.mem_cons.mpr (Or.inl hgp)
          · exact List.mem_cons.mpr (Or.inr (ih.mpr ⟨g, hg', hgs, hgc, hgp⟩))
      · rw [gifLoop, if_neg (by simp [h1]), if_neg h2]
        show p ∈ (gifLoop files d rest).1 ↔ _
        rw [ih]
        constructor
        · rintro ⟨g, hg, h⟩
          exact ⟨g, List.mem_cons_of_mem f hg, h⟩
        · rintro ⟨g, hg, hgs, hgc, hgp⟩
          rcases List.mem_cons.mp hg with rfl | hg'
          · exact absurd hgc h2
          · exact ⟨g, hg', hgs, hgc, hgp⟩

theorem warns_gifLoop {files : List String} {d : String} (l : List String) :
    (gifLoop files d l).2 =
      (l.filter (fun f => !pyEndsWith (pyDropRight f 4) "s" &&
          !files.contains (pyDropRight f 4 ++ "s.gif"))).map
        (fun f => "Warning: No answer found for question " ++ pyDropRight f 4) := by
  induction l with
  | nil => simp [gifLoop]
  | cons f rest ih =>
    by_cases h1 : pyEndsWith (pyDropRight f 4) "s" = true
    · have hc : (!pyEndsWith (pyDropRight f 4) "s" &&
          !files.contains (pyDropRight f 4 ++ "s.gif")) = false := by rw [h1]; rfl
      rw [gifLoop, if_pos h1, ih, List.filter_cons, if_neg (by rw [hc]; simp)]
    · rw [Bool.not_eq_true] at h1
      have h1' : ¬(pyEndsWith (pyDropRight f 4) "s" = true) := by rw [h1]; simp
      by_cases h2 : files.contains (pyDropRight f 4 ++ "s.gif") = true
      · have hc : (!pyEndsWith (pyDropRight f 4) "s" &&
            !files.contains (pyDropRight f 4 ++ "s.gif")) = false := by rw [h1, h2]; rfl
        rw [gifLoop, if_neg h1', if_pos h2]
        show (gifLoop files d rest).2 = _
        rw [ih, List.filter_cons, if_neg (by rw [hc]; simp)]
      · rw [Bool.not_eq_true] at h2
        have hc : (!pyEndsWith (pyDropRight f 4) "s" &&
            !files.contains (pyDropRight f 4 ++ "s.gif")) = true := by rw [h1, h2]; rfl
        rw [gifLoop, if_neg h1', if_neg (by rw [h2]; simp)]
        show ("Warning: No answer found for question " ++ pyDropRight f 4)
            :: (gifLoop files d rest).2 = _
        rw [ih, List.filter_cons, if_pos hc, List.map_cons]

theorem tupLe_fst_le {x y : GifPair} (h : tupLe x y) : x.1 ≤ y.1 := by
  rcases (Prod.Lex.le_iff _ _).mp h with h' | ⟨h', _⟩
  · exact le_of_lt h'
  · exact le_of_eq h'

theorem contains_iff {l : List String} {a : String} : l.contains a = true ↔ a ∈ l := by
  unfold List.contains
  exact List.elem_iff

/-! ### Claim theorems -/

/-- C1 counterexample: the directory `{as.gif, ass.gif}` contains both
`{id}.gif` and `{id}s.gif` for the id `as`, yet `get_gif_pairs` returns no
pair at all (the question candidate `as.gif` is skipped because its stem ends
in `s`), so discovery does not return "exactly the set of ids for which both
files are present". -/
theorem discovery_misses_id_ending_s :
    ("as" ++ ".gif") ∈ ["as.gif", "ass.gif"] ∧
      ("as" ++ "s.gif") ∈ ["as.gif", "ass.gif"] ∧
      (get_gif_pairs (some ["as.gif", "ass.gif"]) "questions_folder").1 = [] := by
  decide

/-- C1 (amended): for every source directory, `get_gif_pairs` returns exactly
the pairs whose id does not end in `s` and for which both `{id}.gif` and
`{id}s.gif` are present, each pair carrying the question path and the answer
path, with the result sorted ascending by id; every question file whose stem
does not end in `s` and lacks a matching `{id}s.gif` is excluded and produces
a warning, and nothing is a fatal error (the function is total). -/
theorem discovery_pairs_characterization (files : List String) (dirName : String) :
    (∀ id qp ap, (id, qp, ap) ∈ (get_gif_pairs (some files) dirName).1 ↔
        ((id ++ ".gif") ∈ files ∧ (id ++ "s.gif") ∈ files ∧
          pyEndsWith id "s" = false ∧
          qp = pathJoin dirName (id ++ ".gif") ∧ ap = pathJoin dirName (id ++ "s.gif"))) ∧
    (get_gif_pairs (some files) dirName).1.Pairwise (fun x y => x.1 ≤ y.1) ∧
    (∀ f, f ∈ files → pyEndsWith f ".gif" = true →
        pyEndsWith (pyDropRight f 4) "s" = false →
        (pyDropRight f 4 ++ "s.gif") ∉ files →
        ("Warning: No answer found for question " ++ pyDropRight f 4) ∈
          (get_gif_pairs (some files) dirName).2) := by
  refine ⟨?_, ?_, ?_⟩
  · intro id qp ap
    show (id, qp, ap) ∈ List.insertionSort tupLe _ ↔ _
    rw [List.mem_insertionSort, mem_gifLoop]
    constructor
    · rintro ⟨f, hf, hfs, hfc, heq⟩
      obtain ⟨hfmem, hfgif⟩ := List.mem_filter.mp hf
      rw [Prod.mk.injEq, Prod.mk.injEq] at heq
      obtain ⟨hid, hqp, hap⟩ := heq
      have hrw : id ++ ".gif" = f := by rw [hid]; exact append_gif_of_pyEndsWith hfgif
      refine ⟨hrw ▸ hfmem, ?_, hid ▸ hfs, ?_, ?_⟩
      · rw [hid]; exact contains_iff.mp hfc
      · rw [hqp, hrw]
      · rw [hap, hid]
    · rintro ⟨hq, ha, hs, hqp, hap⟩
      refine ⟨id ++ ".gif", List.mem_filter.mpr ⟨hq, pyEndsWith_append id ".gif"⟩, ?_, ?_, ?_⟩
      · rw [pyDropRight_gif]; exact hs
      · rw [pyDropRight_gif]; exact contains_iff.mpr ha
      · rw [pyDropRight_gif, hqp, hap]
  · exact (List.sorted_insertionSort tupLe _).imp (fun h => tupLe_fst_le h)
  · intro f hf hgif hstem hans
    show _ ∈ (gifLoop files dirName (files.filter fun f => pyEndsWith f ".gif")).2
    rw [warns_gifLoop]
    refine List.mem_map_of_mem _ (List.mem_filter.mpr ⟨List.mem_filter.mpr ⟨hf, hgif⟩, ?_⟩)
    have hc : files.contains (pyDropRight f 4 ++ "s.gif") = false := by
      rcases Bool.eq_false_or_eq_true (files.contains (pyDropRight f 4 ++ "s.gif")) with h | h
      · exact absurd (contains_iff.mp h) hans
      · exact h
    rw [hstem, hc]
    rfl

/-- C7: when the source directory does not exist, `get_gif_pairs` reports an
error message and returns the empty pair list; nothing raises (the function is
total and yields exactly this value). -/
theorem missing_folder_returns_empty (dirName : String) :
    get_gif_pairs none dirName =
      ([], ["Error: Questions folder " ++ dirName ++ " not found!"]) := rfl

/-- C10: every pair returned by `get_gif_pairs` has an id that does not end in
`s`; the warnings are exactly those for non-`s`-stem gif files lacking an
answer, so a gif file whose stem ends in `s` is skipped silently; concretely,
on the directory `{as.gif, ass.gif}` batch discovery returns no pair and no
warning, while `process_single_question` accepts the id `as` and invokes the
primary renderer on it. -/
theorem batch_skips_ids_ending_s (files : List String) (dirName : String) :
    (∀ p ∈ (get_gif_pairs (some files) dirName).1, pyEndsWith p.1 "s" = false) ∧
    ((get_gif_pairs (some files) dirName).2 =
      ((files.filter fun f => pyEndsWith f ".gif").filter
          (fun f => !pyEndsWith (pyDropRight f 4) "s" &&
            !files.contains (pyDropRight f 4 ++ "s.gif"))).map
        (fun f => "Warning: No answer found for question " ++ pyDropRight f 4)) ∧
    (get_gif_pairs (some ["as.gif", "ass.gif"]) "d" = ([], []) ∧
      process_single_question (fun _ _ _ _ => true) (fun _ _ _ _ => true)
          ["as.gif", "ass.gif"] "d" "as" false =
        (true, [RenderCall.withGifs "d/as.gif" "d/ass.gif" "as"
          "output_pdfs/question_as.pdf"], [])) := by
  refine ⟨?_, ?_, by decide, by decide⟩
  · intro p hp
    have hp' : p ∈ (gifLoop files dirName (files.filter fun f => pyEndsWith f ".gif")).1 :=
      (List.mem_insertionSort tupLe).mp hp
    obtain ⟨f, _, hfs, _, heq⟩ := mem_gifLoop.mp hp'
    rw [heq]
    exact hfs
  · exact warns_gifLoop _

/-- C2: in process-all mode without the simple flag, each discovered pair is
attempted with the primary strategy first, the fallback runs on that pair
exactly when the primary returned failure, the success count equals the number
of pairs on which at least one strategy succeeded, and the count never exceeds
the number of pairs. -/
theorem batch_primary_fallback_policy (primary fallback : Strategy) (pairs : List GifPair) :
    ((process_all_questions primary fallback false pairs).2 =
      pairs.flatMap (fun p =>
        if primary p.2.1 p.2.2 p.1 (outputPathFor p.1) then
          [RenderCall.withGifs p.2.1 p.2.2 p.1 (outputPathFor p.1)]
        else
          [RenderCall.withGifs p.2.1 p.2.2 p.1 (outputPathFor p.1),
            RenderCall.simple p.2.1 p.2.2 p.1 (outputPathFor p.1)])) ∧
    ((process_all_questions primary fallback false pairs).1 =
      (pairs.filter (fun p => primary p.2.1 p.2.2 p.1 (outputPathFor p.1) ||
          fallback p.2.1 p.2.2 p.1 (outputPathFor p.1))).length) ∧
    (process_all_questions primary fallback false pairs).1 ≤ pairs.length := by
  induction pairs with
  | nil => exact ⟨rfl, rfl, le_refl 0⟩
  | cons p rest ih =>
    obtain ⟨qid, qp, ap⟩ := p
    obtain ⟨ih1, ih2, ih3⟩ := ih
    refine ⟨?_, ?_, ?_⟩
    · rw [process_all_questions]
      simp only [Bool.false_eq_true, if_false, List.flatMap_cons, ih1]
    · rw [process_all_questions]
      simp only [Bool.false_eq_true, if_false, List.filter_cons]
      by_cases hp : (primary qp ap qid (outputPathFor qid) ||
          fallback qp ap qid (outputPathFor qid)) = true
      · rw [if_pos hp, if_pos hp]
        simp only [List.length_cons, ih2, Nat.add_comm]
      · rw [if_neg hp, if_neg hp]
        exact ih2
    · rw [process_all_questions]
      simp only [Bool.false_eq_true, if_false, List.length_cons]
      by_cases hp : (primary qp ap qid (outputPathFor qid) ||
          fallback qp ap qid (outputPathFor qid)) = true
      · rw [if_pos hp]
        omega
      · rw [if_neg hp]
        omega

/-- C5: when the simple flag is set, the primary renderer
`create_pdf_with_gifs` is never invoked, neither in process-all mode nor in
single-id mode: every recorded strategy invocation is a fallback one. -/
theorem simple_mode_never_calls_primary (primary fallback : Strategy)
    (pairs : List GifPair) (files : List String) (dirName question_id : String) :
    (process_all_questions primary fallback true pairs).2.all RenderCall.isSimple = true ∧
    (process_single_question primary fallback files dirName question_id
        true).2.1.all RenderCall.isSimple = true := by
  constructor
  · induction pairs with
    | nil => rfl
    | cons p rest ih =>
      obtain ⟨qid, qp, ap⟩ := p
      rw [process_all_questions]
      simp only [if_true, List.all_append, ih, Bool.and_true]
      rfl
  · rw [process_single_question]
    by_cases h1 : (!files.contains (question_id ++ ".gif")) = true
    · rw [if_pos h1]; rfl
    · rw [if_neg h1]
      by_cases h2 : (!files.contains (question_id ++ "s.gif")) = true
      · rw [if_pos h2]; rfl
      · rw [if_neg h2, if_pos rfl]; rfl

/-- C6: in single-id mode, if either `{id}.gif` or `{id}s.gif` is missing from
the source directory, `process_single_question` reports the missing file and
fails immediately: it returns failure, invokes no rendering strategy, and
prints an error naming a missing file. -/
theorem single_missing_file_fails (primary fallback : Strategy) (files : List String)
    (dirName question_id : String) (use_simple_mode : Bool)
    (h : (question_id ++ ".gif") ∉ files ∨ (question_id ++ "s.gif") ∉ files) :
    (process_single_question primary fallback files dirName question_id
        use_simple_mode).1 = false ∧
    (process_single_question primary fallback files dirName question_id
        use_simple_mode).2.1 = [] ∧
    ((process_single_question primary fallback files dirName question_id
        use_simple_mode).2.2 =
        ["Error: Question GIF not found: " ++ pathJoin dirName (question_id ++ ".gif")] ∨
      (process_single_question primary fallback files dirName question_id
        use_simple_mode).2.2 =
        ["Error: Answer GIF not found: " ++ pathJoin dirName (question_id ++ "s.gif")]) := by
  rw [process_single_question]
  by_cases h1 : files.contains (question_id ++ ".gif") = true
  · have hq : (question_id ++ ".gif") ∈ files := contains_iff.mp h1
    have h2 : files.contains (question_id ++ "s.gif") = false := by
      rcases h with h | h
      · exact absurd hq h
      · rcases Bool.eq_false_or_eq_true (files.contains (question_id ++ "s.gif")) with hc | hc
        · exact absurd (contains_iff.mp hc) h
        · exact hc
    rw [if_neg (by rw [h1]; simp), if_pos (by rw [h2]; rfl)]
    exact ⟨rfl, rfl, Or.inr rfl⟩
  · have h1' : files.contains (question_id ++ ".gif") = false := by
      rcases Bool.eq_false_or_eq_true (files.contains (question_id ++ ".gif")) with hc | hc
      · exact absurd hc h1
      · exact hc
    rw [if_pos (by rw [h1']; rfl)]
    exact ⟨rfl, rfl, Or.inl rfl⟩

/-- C6 witness: with an empty directory, the single-id operation on id `1`
fails with no strategy invocation. -/
theorem single_missing_file_fails_witness :
    (process_single_question (fun _ _ _ _ => true) (fun _ _ _ _ => true) []
        "d" "1" false).1 = false ∧
    (process_single_question (fun _ _ _ _ => true) (fun _ _ _ _ => true) []
        "d" "1" false).2.1 = [] ∧
    ((process_single_question (fun _ _ _ _ => true) (fun _ _ _ _ => true) []
        "d" "1" false).2.2 =
        ["Error: Question GIF not found: " ++ pathJoin "d" ("1" ++ ".gif")] ∨
      (process_single_question (fun _ _ _ _ => true) (fun _ _ _ _ => true) []
        "d" "1" false).2.2 =
        ["Error: Answer GIF not found: " ++ pathJoin "d" ("1" ++ "s.gif")]) :=
  single_missing_file_fails (fun _ _ _ _ => true) (fun _ _ _ _ => true) []
    "d" "1" false (Or.inl (by decide))

/-- C3: for a readable image with positive pixel dimensions and positive
maxima, `get_image_dimensions` preserves the native aspect ratio exactly (the
float rounding of the source is modelled exactly over `ℚ`), returns positive
dimensions, and: a landscape image (width > height) gets width ≤ max width,
while a portrait-or-square image (height ≥ width) gets height ≤ max height. -/
theorem image_dimensions_contract (iw ih mw mh : ℚ)
    (hiw : 0 < iw) (hih : 0 < ih) (hmw : 0 < mw) (hmh : 0 < mh) :
    (get_image_dimensions (some (iw, ih)) mw mh).1 /
        (get_image_dimensions (some (iw, ih)) mw mh).2 = iw / ih ∧
    0 < (get_image_dimensions (some (iw, ih)) mw mh).1 ∧
    0 < (get_image_dimensions (some (iw, ih)) mw mh).2 ∧
    (ih < iw → (get_image_dimensions (some (iw, ih)) mw mh).1 ≤ mw) ∧
    (iw ≤ ih → (get_image_dimensions (some (iw, ih)) mw mh).2 ≤ mh) := by
  have ha : 0 < iw / ih := div_pos hiw hih
  by_cases h1 : iw > ih
  · by_cases h2 : min mw iw / (iw / ih) > mh
    · have hx : get_image_dimensions (some (iw, ih)) mw mh = (mh * (iw / ih), mh) := by
        rw [get_image_dimensions, if_pos h1, if_pos h2]
      rw [hx]
      refine ⟨?_, mul_pos hmh ha, hmh, ?_, ?_⟩
      · show mh * (iw / ih) / mh = iw / ih
        rw [mul_comm, mul_div_assoc, div_self hmh.ne', mul_one]
      · intro _
        show mh * (iw / ih) ≤ mw
        have hlt : mh * (iw / ih) < min mw iw := (lt_div_iff ha).mp h2
        exact le_trans (le_of_lt hlt) (min_le_left mw iw)
      · intro hle
        exact absurd h1 (not_lt_of_ge hle)
    · have hw : 0 < min mw iw := lt_min hmw hiw
      have hx : get_image_dimensions (some (iw, ih)) mw mh =
          (min mw iw, min mw iw / (iw / ih)) := by
        rw [get_image_dimensions, if_pos h1, if_neg h2]
      rw [hx]
      refine ⟨?_, hw, div_pos hw ha, ?_, ?_⟩
      · show min mw iw / (min mw iw / (iw / ih)) = iw / ih
        rw [div_div_eq_mul_div, mul_comm, mul_div_assoc, div_self hw.ne', mul_one]
      · intro _
        exact min_le_left mw iw
      · intro hle
        exact absurd h1 (not_lt_of_ge hle)
  · by_cases h3 : min mh ih * (iw / ih) > mw
    · have hx : get_image_dimensions (some (iw, ih)) mw mh = (mw, mw / (iw / ih)) := by
        rw [get_image_dimensions, if_neg h1, if_pos h3]
      rw [hx]
      refine ⟨?_, hmw, div_pos hmw ha, ?_, ?_⟩
      · show mw / (mw / (iw / ih)) = iw / ih
        rw [div_div_eq_mul_div, mul_comm, mul_div_assoc, div_self hmw.ne', mul_one]
      · intro h
        exact absurd h h1
      · intro _
        show mw / (iw / ih) ≤ mh
        have hlt : mw / (iw / ih) < min mh ih := (div_lt_iff ha).mpr h3
        exact le_trans (le_of_lt hlt) (min_le_left mh ih)
    · have hh : 0 < min mh ih := lt_min hmh hih
      have hx : get_image_dimensions (some (iw, ih)) mw mh =
          (min mh ih * (iw / ih), min mh ih) := by
        rw [get_image_dimensions, if_neg h1, if_neg h3]
      rw [hx]
      refine ⟨?_, mul_pos hh ha, hh, ?_, ?_⟩
      · show min mh ih * (iw / ih) / min mh ih = iw / ih
        rw [mul_comm, mul_div_assoc, div_self hh.ne', mul_one]
      · intro h
        exact absurd h h1
      · intro _
        exact min_le_left mh ih

/-- C3 witness: a concrete landscape 4×2 image against a 3×3 box. -/
theorem image_dimensions_contract_witness :
    ((0 : ℚ) < 4 ∧ (0 : ℚ) < 2 ∧ (0 : ℚ) < 3 ∧ (0 : ℚ) < 3) ∧
    ((get_image_dimensions (some ((4 : ℚ), (2 : ℚ))) 3 3).1 /
        (get_image_dimensions (some ((4 : ℚ), (2 : ℚ))) 3 3).2 = 4 / 2 ∧
      0 < (get_image_dimensions (some ((4 : ℚ), (2 : ℚ))) 3 3).1 ∧
      0 < (get_image_dimensions (some ((4 : ℚ), (2 : ℚ))) 3 3).2 ∧
      ((2 : ℚ) < 4 → (get_image_dimensions (some ((4 : ℚ), (2 : ℚ))) 3 3).1 ≤ 3) ∧
      ((4 : ℚ) ≤ 2 → (get_image_dimensions (some ((4 : ℚ), (2 : ℚ))) 3 3).2 ≤ 3)) :=
  ⟨⟨by norm_num, by norm_num, by norm_num, by norm_num⟩,
    image_dimensions_contract 4 2 3 3 (by norm_num) (by norm_num) (by norm_num) (by norm_num)⟩

/-- C8: when the image read fails (modelled by `none`) and the maxima are
positive, `get_image_dimensions` returns exactly `(0.8 * max_width,
0.8 * max_height)`, which is positive, and no error propagates (the function
is total and yields exactly this value). -/
theorem dimensions_fallback_on_read_error (mw mh : ℚ) (hmw : 0 < mw) (hmh : 0 < mh) :
    get_image_dimensions none mw mh = (0.8 * mw, 0.8 * mh) ∧
    0 < 0.8 * mw ∧ 0 < 0.8 * mh := by
  refine ⟨?_, ?_, ?_⟩
  · rw [get_image_dimensions, mul_comm mw 0.8, mul_comm mh 0.8]
  · exact mul_pos (by norm_num) hmw
  · exact mul_pos (by norm_num) hmh

/-- C8 witness: concrete maxima 5 × 5 give the fallback size (4, 4). -/
theorem dimensions_fallback_on_read_error_witness :
    ((0 : ℚ) < 5 ∧ (0 : ℚ) < 5) ∧
    (get_image_dimensions none (5 : ℚ) (5 : ℚ) = (0.8 * 5, 0.8 * 5) ∧
      (0 : ℚ) < 0.8 * 5 ∧ (0 : ℚ) < 0.8 * 5) :=
  ⟨⟨by norm_num, by norm_num⟩,
    dimensions_fallback_on_read_error 5 5 (by norm_num) (by norm_num)⟩

/-- C4 (code bug): the fallback renderer `create_simple_pdf` can never return
success on any input, because its very first centred-text call dispatches the
method name `drawCentredText`, which does not exist on the ReportLab canvas
(the real method is `drawCentredString`); the resulting `AttributeError` is
swallowed by the outer handler, which returns `False`. In particular no valid
pair yields success, and the claimed per-image inline-error degradation is
unreachable. -/
theorem simple_pdf_always_fails :
    (∀ (loadImage : String → Option (ℚ × ℚ)) (qp ap qid out : String),
        create_simple_pdf loadImage qp ap qid out = false) ∧
    canvasMethods.contains "drawCentredText" = false ∧
    canvasMethods.contains "drawCentredString" = true :=
  ⟨fun _ _ _ _ _ => rfl, by decide, by decide⟩

/-- C9 (spec-modelled): starting from `unsorted = {1.gif, 1s.gif, 2.gif}` and
empty destinations, one run leaves `questions = {1.gif, 2.gif}`,
`solutions = {1s.gif}` and `unsorted` empty; each file occurs exactly once
across the three directories; and a run on an empty `unsorted` changes
nothing. -/
theorem sorting_scenario :
    sort_files ["1.gif", "1s.gif", "2.gif"] [] [] =
      ([], ["1.gif", "2.gif"], ["1s.gif"]) ∧
    (([] ++ ["1.gif", "2.gif"] ++ ["1s.gif"]).count "1.gif" = 1 ∧
      ([] ++ ["1.gif", "2.gif"] ++ ["1s.gif"]).count "1s.gif" = 1 ∧
      ([] ++ ["1.gif", "2.gif"] ++ ["1s.gif"]).count "2.gif" = 1) ∧
    (∀ questions solutions, sort_files [] questions solutions =
      ([], questions, solutions)) :=
  ⟨by decide, ⟨by decide, by decide, by decide⟩, fun _ _ => rfl⟩

end SmcSorter
